import Mathlib

/-!
Shallow embedding of the tax calculator in `src/calculadora.py`
(class `CalculadoraTributariaAvancada`).  Monetary amounts, rates and
revenue figures are modelled as rationals; Python's guarded divisions
(`x / y if y > 0 else 0`) are embedded with the same explicit guards.
Result dictionaries become structures; a dictionary key that is present
in only one branch of the source (for example `rbt12_usado`, which the
zero-revenue branch of `calcular_simples_nacional` omits) becomes an
`Option` field.  Dictionary keys that no theorem below touches
(`lucro_liquido` and `aliquota_efetiva` of the zero-revenue branch,
which `calcular_todos_regimes` recomputes anyway) are omitted.
-/

namespace CalculadoraTributaria

/-- Calculation mode: `'simples'` (direct RBT12) or `'detalhado'`
(12-month history plus projections). -/
inductive Modo where
  | simples
  | detalhado
deriving DecidableEq

/-- The state built by `CalculadoraTributariaAvancada.__init__`:
the financial-input record.  `faturamento_total` is derived below,
mirroring `self.faturamento_total = vendas + servicos`.
The fields `aliquota_icms` / `aliquota_iss` are stored by the source but
never read by any computation, so they are not modelled. -/
structure Calc where
  modo_calculo : Modo
  faturamento_vendas : ℚ
  faturamento_servicos : ℚ
  servicoIntelectual : Bool
  meses_anteriores : List ℚ
  projecoes : List ℚ
  rbt12 : ℚ
  folha_salarial : ℚ
  prolabore : ℚ
  base_inss_salario : ℚ
  base_inss_prolabore : ℚ
  fgts_anual : ℚ
  cmv : ℚ
  despesas_operacionais : ℚ
deriving DecidableEq

/-- `self.faturamento_total = self.faturamento_vendas + self.faturamento_servicos` -/
def faturamento_total (c : Calc) : ℚ :=
  c.faturamento_vendas + c.faturamento_servicos

/-- `ANEXO_I_COMERCIO` bracket table: (ceiling, nominal rate, deduction). -/
def ANEXO_I_COMERCIO : List (ℚ × ℚ × ℚ) :=
  [(180000, 0.04, 0), (360000, 0.073, 5940), (720000, 0.095, 13860),
   (1800000, 0.107, 22500), (3600000, 0.143, 87300), (4800000, 0.19, 378000)]

/-- `ANEXO_III_SERVICOS` bracket table. -/
def ANEXO_III_SERVICOS : List (ℚ × ℚ × ℚ) :=
  [(180000, 0.06, 0), (360000, 0.112, 9360), (720000, 0.135, 17640),
   (1800000, 0.16, 35640), (3600000, 0.21, 125640), (4800000, 0.33, 648000)]

/-- `ANEXO_V_SERVICOS_INTELECTUAIS` bracket table. -/
def ANEXO_V_SERVICOS_INTELECTUAIS : List (ℚ × ℚ × ℚ) :=
  [(180000, 0.155, 0), (360000, 0.18, 4500), (720000, 0.195, 11250),
   (1800000, 0.205, 17100), (3600000, 0.23, 62100), (4800000, 0.305, 540000)]

/-- The `for i, (limite, aliquota, deducao) in enumerate(tabela)` loop of
`_get_faixa_simples`, carrying the enumeration index. -/
def faixa_loop (rbt12 : ℚ) : List (ℚ × ℚ × ℚ) → ℕ → Option (ℚ × ℚ × ℕ)
  | [], _ => none
  | (limite, aliquota, deducao) :: resto, i =>
    if rbt12 ≤ limite then some (aliquota, deducao, i + 1)
    else faixa_loop rbt12 resto (i + 1)

/-- `_get_faixa_simples(rbt12, tabela)`: returns (rate, deduction, 1-based
bracket index); falls through to the last entry with index = table length.
(On an empty table the source would raise `IndexError` at `tabela[-1]`;
the claims only ever use the three fixed 6-entry tables, so the empty
case is given an inert default.) -/
def get_faixa_simples (rbt12 : ℚ) (tabela : List (ℚ × ℚ × ℚ)) : ℚ × ℚ × ℕ :=
  match faixa_loop rbt12 tabela 0 with
  | some r => r
  | none =>
    match tabela.getLast? with
    | some (_, aliquota, deducao) => (aliquota, deducao, tabela.length)
    | none => (0, 0, 0)

/-- `rbt12_usado = rbt12_custom or self.rbt12`: Python `or` falls back when
the left operand is falsy, i.e. `None` **or** `0.0`. -/
def rbt12_usado (rbt12_custom : Option ℚ) (rbt12 : ℚ) : ℚ :=
  match rbt12_custom with
  | some r => if r = 0 then rbt12 else r
  | none => rbt12

/-- The services-schedule selection inside `calcular_simples_nacional`:
`ANEXO_V` when the intellectual-service flag is set, demoted back to
`ANEXO_III` when the Factor-R ratio reaches 0.28. -/
def tabela_servicos_usada (c : Calc) : List (ℚ × ℚ × ℚ) :=
  if c.servicoIntelectual then
    let massa_salarial := c.folha_salarial + c.prolabore
    let fator_r := if 0 < faturamento_total c then massa_salarial / faturamento_total c else 0
    if fator_r ≥ 0.28 then ANEXO_III_SERVICOS else ANEXO_V_SERVICOS_INTELECTUAIS
  else ANEXO_III_SERVICOS

/-- Result dictionary of `calcular_simples_nacional`.  The zero-revenue
branch omits the `rbt12_usado` key, hence the `Option`. -/
structure ResultadoSN where
  imposto_das : ℚ
  carga_tributaria_total : ℚ
  faixa : ℕ
  rbt12_usado : Option ℚ
deriving DecidableEq

/-- `calcular_simples_nacional(rbt12_custom)`. -/
def calcular_simples_nacional (c : Calc) (rbt12_custom : Option ℚ) : ResultadoSN :=
  let rbt12u := rbt12_usado rbt12_custom c.rbt12
  if faturamento_total c = 0 then
    { imposto_das := 0, carga_tributaria_total := 0, faixa := 1, rbt12_usado := none }
  else
    let vendas_calc : ℚ × ℕ :=
      if 0 < c.faturamento_vendas then
        let fv := get_faixa_simples rbt12u ANEXO_I_COMERCIO
        let aliq_efetiva := if 0 < rbt12u then (rbt12u * fv.1 - fv.2.1) / rbt12u else 0
        (c.faturamento_vendas * aliq_efetiva, fv.2.2)
      else (0, 1)
    let servicos_calc : ℚ × ℕ :=
      if 0 < c.faturamento_servicos then
        let ft := get_faixa_simples rbt12u (tabela_servicos_usada c)
        let aliq_efetiva_serv := if 0 < rbt12u then (rbt12u * ft.1 - ft.2.1) / rbt12u else 0
        (c.faturamento_servicos * aliq_efetiva_serv, ft.2.2)
      else (0, 1)
    let imposto_das_total := vendas_calc.1 + servicos_calc.1
    { imposto_das := imposto_das_total,
      carga_tributaria_total := imposto_das_total + c.fgts_anual,
      faixa := max vendas_calc.2 servicos_calc.2,
      rbt12_usado := some rbt12u }

/-- Result dictionary of `calcular_lucro_presumido`. -/
structure ResultadoLP where
  irpj : ℚ
  adicional_irpj : ℚ
  csll : ℚ
  pis : ℚ
  cofins : ℚ
  inss_patronal : ℚ
  carga_tributaria_total : ℚ
deriving DecidableEq

/-- `calcular_lucro_presumido()`. -/
def calcular_lucro_presumido (c : Calc) : ResultadoLP :=
  let base_irpj := c.faturamento_vendas * 0.08 + c.faturamento_servicos * 0.32
  let base_csll := c.faturamento_vendas * 0.12 + c.faturamento_servicos * 0.32
  let irpj := base_irpj * 0.15
  let adicional_irpj := max 0 (base_irpj - 240000) * 0.10
  let csll := base_csll * 0.09
  let pis := faturamento_total c * 0.0065
  let cofins := faturamento_total c * 0.03
  let impostos_federais := irpj + adicional_irpj + csll + pis + cofins
  let inss_patronal := c.base_inss_salario * 0.258 + c.base_inss_prolabore * 0.20
  let encargos_totais := inss_patronal + c.fgts_anual
  { irpj := irpj, adicional_irpj := adicional_irpj, csll := csll, pis := pis,
    cofins := cofins, inss_patronal := inss_patronal,
    carga_tributaria_total := impostos_federais + encargos_totais }

/-- Result dictionary of `calcular_lucro_real`.  The loss branch carries
`prejuizo_fiscal` and no `lucro_contabil` key; the profit branch the
converse — hence the `Option` fields. -/
structure ResultadoLR where
  irpj : ℚ
  adicional_irpj : ℚ
  csll : ℚ
  pis : ℚ
  cofins : ℚ
  prejuizo_fiscal : Option ℚ
  lucro_contabil : Option ℚ
  carga_tributaria_total : ℚ
deriving DecidableEq

/-- `lucro_contabil`: accounting profit of `calcular_lucro_real`. -/
def lucro_contabil (c : Calc) : ℚ :=
  faturamento_total c - c.cmv - c.despesas_operacionais -
    c.folha_salarial - c.prolabore - c.fgts_anual

/-- `calcular_lucro_real()`. -/
def calcular_lucro_real (c : Calc) : ResultadoLR :=
  let lucro := lucro_contabil c
  let inss_patronal := c.base_inss_salario * 0.258 + c.base_inss_prolabore * 0.20
  let encargos_totais := inss_patronal + c.fgts_anual
  if lucro ≤ 0 then
    { irpj := 0, adicional_irpj := 0, csll := 0, pis := 0, cofins := 0,
      prejuizo_fiscal := some |lucro|, lucro_contabil := none,
      carga_tributaria_total := encargos_totais }
  else
    let irpj := lucro * 0.15
    let adicional_irpj := max 0 (lucro - 240000) * 0.10
    let csll := lucro * 0.09
    let pis_debito := faturamento_total c * 0.0165
    let cofins_debito := faturamento_total c * 0.076
    let pis_credito := c.cmv * 0.0165
    let cofins_credito := c.cmv * 0.076
    let pis_a_pagar := max 0 (pis_debito - pis_credito)
    let cofins_a_pagar := max 0 (cofins_debito - cofins_credito)
    let impostos_federais := irpj + adicional_irpj + csll + pis_a_pagar + cofins_a_pagar
    { irpj := irpj, adicional_irpj := adicional_irpj, csll := csll,
      pis := pis_a_pagar, cofins := cofins_a_pagar,
      prejuizo_fiscal := none, lucro_contabil := some lucro,
      carga_tributaria_total := impostos_federais + encargos_totais }

/-- `_calcular_rbt12_mes(mes_futuro)`: rolling 12-month revenue at a
future month offset. -/
def calcular_rbt12_mes (c : Calc) (mes_futuro : ℕ) : ℚ :=
  if c.modo_calculo ≠ Modo.detalhado then c.rbt12
  else if mes_futuro = 0 then c.rbt12
  else ((c.meses_anteriores.drop mes_futuro) ++ (c.projecoes.take mes_futuro)).sum

/-- The `faixas_nome` list of `analisar_mudanca_faixa`. -/
def faixas_nome : List String :=
  ["1ª Faixa", "2ª Faixa", "3ª Faixa", "4ª Faixa", "5ª Faixa", "6ª Faixa"]

/-- Bracket index of the simplified-regime result at a future month offset
(`resultado['faixa']` for `calcular_simples_nacional(rbt12 at offset)`). -/
def faixa_mes (c : Calc) (mes : ℕ) : ℕ :=
  (calcular_simples_nacional c (some (calcular_rbt12_mes c mes))).faixa

/-- Total cost of the simplified-regime result at a future month offset
(`resultado['carga_tributaria_total']`). -/
def carga_mes (c : Calc) (mes : ℕ) : ℚ :=
  (calcular_simples_nacional c (some (calcular_rbt12_mes c mes))).carga_tributaria_total

/-- One alert dictionary of `analisar_mudanca_faixa`. -/
structure Alerta where
  mes : ℕ
  de_faixa : String
  para_faixa : String
  rbt12_atual : ℚ
  rbt12_novo : ℚ
  impacto_mensal : ℚ
  alerta : String
  subindo : Bool
deriving DecidableEq

/-- The loop body of `analisar_mudanca_faixa` for one month offset:
`some` alert exactly when the bracket index changes between `mes` and
`mes + 1`, else `none` (no `append`). -/
def mudanca_step (c : Calc) (mes : ℕ) : Option Alerta :=
  let rbt12_atual := calcular_rbt12_mes c mes
  let rbt12_proximo := calcular_rbt12_mes c (mes + 1)
  if faixa_mes c mes ≠ faixa_mes c (mes + 1) then
    let impacto_mensal := (carga_mes c (mes + 1) - carga_mes c mes) / 12
    some { mes := mes + 1,
           de_faixa := faixas_nome.getD (faixa_mes c mes - 1) "",
           para_faixa := faixas_nome.getD (faixa_mes c (mes + 1) - 1) "",
           rbt12_atual := rbt12_atual,
           rbt12_novo := rbt12_proximo,
           impacto_mensal := impacto_mensal,
           alerta := if |impacto_mensal| > 5000 then "crítico" else "moderado",
           subindo := decide (faixa_mes c (mes + 1) > faixa_mes c mes) }
  else none

/-- `analisar_mudanca_faixa()`: for each offset in
`range(min(6, len(self.projecoes)))`, append an alert when the bracket
index changes; empty outside detailed mode. -/
def analisar_mudanca_faixa (c : Calc) : List Alerta :=
  if c.modo_calculo ≠ Modo.detalhado then []
  else (List.range (min 6 c.projecoes.length)).filterMap (mudanca_step c)

/-- The keyword arguments consumed by `CalculadoraTributariaAvancada.__init__`.
`Option` marks a key that may be absent from `kwargs` where absence
matters (the `rbt12_direto`/`rbt12` lookup chain, the monthly history
`mes_i` and the projections `projecao_i`); the remaining keys default
to 0 (or False) and their absence is indistinguishable from that default. -/
structure Kwargs where
  modo_calculo : Modo
  faturamento_vendas : ℚ
  faturamento_servicos : ℚ
  servicoIntelectual : Bool
  mes : ℕ → Option ℚ
  projecao : ℕ → Option ℚ
  rbt12_direto : Option ℚ
  rbt12 : Option ℚ
  folha_salarial : ℚ
  prolabore : ℚ
  base_inss_salario : ℚ
  base_inss_prolabore : ℚ
  fgts_anual : ℚ
  cmv : ℚ
  despesas_operacionais : ℚ

/-- `CalculadoraTributariaAvancada.__init__(**kwargs)`.  Note that it
performs no validation whatsoever: any field value is accepted, a missing
or falsy monthly value becomes 0 (so the 12-entry history always exists,
padded), and a falsy projection is replaced by the mean of the last three
history months. -/
def mkCalculadora (k : Kwargs) : Calc :=
  let ftotal := k.faturamento_vendas + k.faturamento_servicos
  match k.modo_calculo with
  | Modo.detalhado =>
    let meses := (List.range 12).map (fun i =>
      match k.mes i with
      | some v => if v = 0 then 0 else v
      | none => 0)
    let media_3_meses :=
      if meses.length ≥ 3 then (meses.drop (meses.length - 3)).sum / 3 else 0
    let projecoes := (List.range 6).map (fun j =>
      match k.projecao (j + 1) with
      | some p => if p = 0 then media_3_meses else p
      | none => media_3_meses)
    { modo_calculo := Modo.detalhado,
      faturamento_vendas := k.faturamento_vendas,
      faturamento_servicos := k.faturamento_servicos,
      servicoIntelectual := k.servicoIntelectual,
      meses_anteriores := meses, projecoes := projecoes, rbt12 := meses.sum,
      folha_salarial := k.folha_salarial, prolabore := k.prolabore,
      base_inss_salario := k.base_inss_salario,
      base_inss_prolabore := k.base_inss_prolabore,
      fgts_anual := k.fgts_anual, cmv := k.cmv,
      despesas_operacionais := k.despesas_operacionais }
  | Modo.simples =>
    { modo_calculo := Modo.simples,
      faturamento_vendas := k.faturamento_vendas,
      faturamento_servicos := k.faturamento_servicos,
      servicoIntelectual := k.servicoIntelectual,
      meses_anteriores := [], projecoes := [],
      rbt12 := k.rbt12_direto.getD (k.rbt12.getD ftotal),
      folha_salarial := k.folha_salarial, prolabore := k.prolabore,
      base_inss_salario := k.base_inss_salario,
      base_inss_prolabore := k.base_inss_prolabore,
      fgts_anual := k.fgts_anual, cmv := k.cmv,
      despesas_operacionais := k.despesas_operacionais }

/-! ### Concrete inputs used by the theorems below -/

/-- Concrete input for the C10 witness: goods and services revenue both
positive, rolling revenue 500000 (third bracket). -/
def cW10 : Calc :=
  { modo_calculo := Modo.simples, faturamento_vendas := 100000,
    faturamento_servicos := 50000, servicoIntelectual := true,
    meses_anteriores := [], projecoes := [], rbt12 := 500000,
    folha_salarial := 30000, prolabore := 10000, base_inss_salario := 30000,
    base_inss_prolabore := 10000, fgts_anual := 2400, cmv := 40000,
    despesas_operacionais := 10000 }

/-- Input for the C1 witness: zero revenue but non-zero payroll, INSS
bases, FGTS and costs. -/
def cW1 : Calc :=
  { modo_calculo := Modo.simples, faturamento_vendas := 0,
    faturamento_servicos := 0, servicoIntelectual := false,
    meses_anteriores := [], projecoes := [], rbt12 := 0,
    folha_salarial := 50000, prolabore := 12000, base_inss_salario := 50000,
    base_inss_prolabore := 12000, fgts_anual := 4000, cmv := 30000,
    despesas_operacionais := 8000 }

/-- Input exhibiting the zero-override defect of C2: stored RBT12 200000,
goods revenue 100000. -/
def cC2 : Calc :=
  { modo_calculo := Modo.simples, faturamento_vendas := 100000,
    faturamento_servicos := 0, servicoIntelectual := false,
    meses_anteriores := [], projecoes := [], rbt12 := 200000,
    folha_salarial := 0, prolabore := 0, base_inss_salario := 0,
    base_inss_prolabore := 0, fgts_anual := 0, cmv := 0,
    despesas_operacionais := 0 }

/-- Keyword arguments exhibiting the missing validation of C3: a negative
goods revenue and a monthly history with only 5 of the 12 months
supplied, in detailed mode. -/
def kC3 : Kwargs :=
  { modo_calculo := Modo.detalhado, faturamento_vendas := -1000,
    faturamento_servicos := 0, servicoIntelectual := false,
    mes := fun i => if i < 5 then some 10000 else none,
    projecao := fun _ => none, rbt12_direto := none, rbt12 := none,
    folha_salarial := 0, prolabore := 0, base_inss_salario := 0,
    base_inss_prolabore := 0, fgts_anual := 0, cmv := 0,
    despesas_operacionais := 0 }

/-- Input for the C5 witness: 12 equal history months of 10000 and
6 supplied projections. -/
def cW5 : Calc :=
  { modo_calculo := Modo.detalhado, faturamento_vendas := 10000,
    faturamento_servicos := 0, servicoIntelectual := false,
    meses_anteriores := [10000, 10000, 10000, 10000, 10000, 10000,
      10000, 10000, 10000, 10000, 10000, 10000],
    projecoes := [20000, 20000, 20000, 20000, 20000, 20000], rbt12 := 120000,
    folha_salarial := 0, prolabore := 0, base_inss_salario := 0,
    base_inss_prolabore := 0, fgts_anual := 0, cmv := 0,
    despesas_operacionais := 0 }

/-- The spec's Factor-R scenario input: flag set, services revenue 50000,
payroll + pro-labore 20000 (labor ratio 0.40). -/
def cW6 : Calc :=
  { modo_calculo := Modo.simples, faturamento_vendas := 0,
    faturamento_servicos := 50000, servicoIntelectual := true,
    meses_anteriores := [], projecoes := [], rbt12 := 50000,
    folha_salarial := 15000, prolabore := 5000, base_inss_salario := 15000,
    base_inss_prolabore := 5000, fgts_anual := 0, cmv := 0,
    despesas_operacionais := 0 }

/-- Input for the C7 witness: costs exceed revenue by 30000. -/
def cW7 : Calc :=
  { modo_calculo := Modo.simples, faturamento_vendas := 100000,
    faturamento_servicos := 0, servicoIntelectual := false,
    meses_anteriores := [], projecoes := [], rbt12 := 100000,
    folha_salarial := 60000, prolabore := 20000, base_inss_salario := 60000,
    base_inss_prolabore := 20000, fgts_anual := 5000, cmv := 30000,
    despesas_operacionais := 15000 }

/-- Goods revenue 3000000: presumed IRPJ base exactly 240000. -/
def cW9a : Calc :=
  { modo_calculo := Modo.simples, faturamento_vendas := 3000000,
    faturamento_servicos := 0, servicoIntelectual := false,
    meses_anteriores := [], projecoes := [], rbt12 := 3000000,
    folha_salarial := 0, prolabore := 0, base_inss_salario := 0,
    base_inss_prolabore := 0, fgts_anual := 0, cmv := 0,
    despesas_operacionais := 0 }

/-- Goods revenue 3000012.5: presumed IRPJ base exactly 240001. -/
def cW9b : Calc :=
  { modo_calculo := Modo.simples, faturamento_vendas := 3000012.5,
    faturamento_servicos := 0, servicoIntelectual := false,
    meses_anteriores := [], projecoes := [], rbt12 := 3000012.5,
    folha_salarial := 0, prolabore := 0, base_inss_salario := 0,
    base_inss_prolabore := 0, fgts_anual := 0, cmv := 0,
    despesas_operacionais := 0 }

/-- Input for the C8 witness: detailed mode, 12 months of 10000
(RBT12 120000, first bracket) and a large first projection that pushes
the offset-1 rolling revenue to 200000 (second bracket). -/
def cW8 : Calc :=
  { modo_calculo := Modo.detalhado, faturamento_vendas := 10000,
    faturamento_servicos := 0, servicoIntelectual := false,
    meses_anteriores := [10000, 10000, 10000, 10000, 10000, 10000,
      10000, 10000, 10000, 10000, 10000, 10000],
    projecoes := [90000, 10000, 10000, 10000, 10000, 10000], rbt12 := 120000,
    folha_salarial := 0, prolabore := 0, base_inss_salario := 0,
    base_inss_prolabore := 0, fgts_anual := 0, cmv := 0,
    despesas_operacionais := 0 }

/-! ### Helper lemmas -/

/-- Normal form of `get_faixa_simples` on a six-entry table: first entry
whose ceiling is at least the rolling revenue, 1-based index; falling
through to the last entry with index 6. -/
theorem get_faixa_simples_six (r : ℚ) (e1 e2 e3 e4 e5 e6 : ℚ × ℚ × ℚ) :
    get_faixa_simples r [e1, e2, e3, e4, e5, e6] =
      if r ≤ e1.1 then (e1.2.1, e1.2.2, 1)
      else if r ≤ e2.1 then (e2.2.1, e2.2.2, 2)
      else if r ≤ e3.1 then (e3.2.1, e3.2.2, 3)
      else if r ≤ e4.1 then (e4.2.1, e4.2.2, 4)
      else if r ≤ e5.1 then (e5.2.1, e5.2.2, 5)
      else if r ≤ e6.1 then (e6.2.1, e6.2.2, 6)
      else (e6.2.1, e6.2.2, 6) := by
  obtain ⟨l1, a1, d1⟩ := e1
  obtain ⟨l2, a2, d2⟩ := e2
  obtain ⟨l3, a3, d3⟩ := e3
  obtain ⟨l4, a4, d4⟩ := e4
  obtain ⟨l5, a5, d5⟩ := e5
  obtain ⟨l6, a6, d6⟩ := e6
  simp only [get_faixa_simples, faixa_loop]
  split_ifs <;> rfl

/-- The bracket index returned on a six-entry table is at least 1. -/
theorem get_faixa_simples_six_pos (r : ℚ) (e1 e2 e3 e4 e5 e6 : ℚ × ℚ × ℚ) :
    1 ≤ (get_faixa_simples r [e1, e2, e3, e4, e5, e6]).2.2 := by
  rw [get_faixa_simples_six]
  split_ifs <;> norm_num

/-- The general-services and intellectual-services tables differ. -/
theorem anexo_iii_ne_anexo_v : ANEXO_III_SERVICOS ≠ ANEXO_V_SERVICOS_INTELECTUAIS := by
  norm_num [ANEXO_III_SERVICOS, ANEXO_V_SERVICOS_INTELECTUAIS]

/-- The services table resolves to the same bracket index as the goods
table, for every rolling revenue (the ceilings coincide). -/
theorem faixa_idx_iii (r : ℚ) :
    (get_faixa_simples r ANEXO_III_SERVICOS).2.2 =
      (get_faixa_simples r ANEXO_I_COMERCIO).2.2 := by
  simp only [ ANEXO_I_COMERCIO, ANEXO_III_SERVICOS, get_faixa_simples_six]
  norm_num
  split_ifs <;> rfl

/-- The intellectual-services table resolves to the same bracket index as
the goods table, for every rolling revenue. -/
theorem faixa_idx_v (r : ℚ) :
    (get_faixa_simples r ANEXO_V_SERVICOS_INTELECTUAIS).2.2 =
      (get_faixa_simples r ANEXO_I_COMERCIO).2.2 := by
  simp only [ANEXO_V_SERVICOS_INTELECTUAIS, ANEXO_I_COMERCIO, get_faixa_simples_six]
  norm_num
  split_ifs <;> rfl

/-- Bracket index over the goods table is at least 1. -/
theorem faixa_idx_pos_i (r : ℚ) : 1 ≤ (get_faixa_simples r ANEXO_I_COMERCIO).2.2 := by
  rw [ ANEXO_I_COMERCIO]
  exact get_faixa_simples_six_pos r _ _ _ _ _ _

/-- The services schedule actually used is always one of the two
services tables. -/
theorem tabela_servicos_cases (c : Calc) :
    tabela_servicos_usada c = ANEXO_III_SERVICOS ∨
      tabela_servicos_usada c = ANEXO_V_SERVICOS_INTELECTUAIS := by
  simp only [tabela_servicos_usada]
  split_ifs <;> first | exact Or.inl rfl | exact Or.inr rfl

/-! ### Claim theorems -/

/-- C4: for every non-negative rolling revenue and every 6-entry bracket
schedule, `_get_faixa_simples` returns the nominal rate, deduction and
1-based index of the first entry (in list order, i.e. ascending ceiling
order for the fixed tables) whose ceiling is ≥ the rolling revenue; when
the rolling revenue exceeds every ceiling it returns the last entry's rate
and deduction with index 6 = schedule length, and it never fails (it is a
total function). -/
theorem bracket_resolver_first_fit (r : ℚ) (e1 e2 e3 e4 e5 e6 : ℚ × ℚ × ℚ)
    (h : 0 ≤ r) :
    get_faixa_simples r [e1, e2, e3, e4, e5, e6] =
      if r ≤ e1.1 then (e1.2.1, e1.2.2, 1)
      else if r ≤ e2.1 then (e2.2.1, e2.2.2, 2)
      else if r ≤ e3.1 then (e3.2.1, e3.2.2, 3)
      else if r ≤ e4.1 then (e4.2.1, e4.2.2, 4)
      else if r ≤ e5.1 then (e5.2.1, e5.2.2, 5)
      else if r ≤ e6.1 then (e6.2.1, e6.2.2, 6)
      else (e6.2.1, e6.2.2, 6) :=
  get_faixa_simples_six r e1 e2 e3 e4 e5 e6

/-- Witness for C4: rolling revenue 250000 falls in the second goods
bracket (rate 7.3%, deduction 5940, index 2). -/
theorem bracket_resolver_first_fit_witness :
    (0 : ℚ) ≤ 250000 ∧
      get_faixa_simples 250000 ANEXO_I_COMERCIO = (0.073, 5940, 2) := by
  refine ⟨by norm_num, ?_⟩
  rw [ ANEXO_I_COMERCIO, bracket_resolver_first_fit 250000 _ _ _ _ _ _ (by norm_num)]
  norm_num

/-- C10: the three schedules share the six ascending ceilings
180000, 360000, 720000, 1800000, 3600000, 4800000; hence the resolved
bracket index depends only on the rolling revenue, not on the schedule;
and whenever total revenue is non-zero the simplified result's reported
dominant index `max(goods index, services index)` equals the single index
resolved for the rolling revenue actually used. -/
theorem faixa_independent_of_schedule :
    (List.map Prod.fst ANEXO_I_COMERCIO =
        [180000, 360000, 720000, 1800000, 3600000, 4800000] ∧
      ANEXO_III_SERVICOS.map Prod.fst =
        [180000, 360000, 720000, 1800000, 3600000, 4800000] ∧
      ANEXO_V_SERVICOS_INTELECTUAIS.map Prod.fst =
        [180000, 360000, 720000, 1800000, 3600000, 4800000]) ∧
    (∀ r : ℚ,
      (get_faixa_simples r ANEXO_III_SERVICOS).2.2 =
          (get_faixa_simples r ANEXO_I_COMERCIO).2.2 ∧
        (get_faixa_simples r ANEXO_V_SERVICOS_INTELECTUAIS).2.2 =
          (get_faixa_simples r ANEXO_I_COMERCIO).2.2) ∧
    (∀ (c : Calc) (custom : Option ℚ),
      0 ≤ c.faturamento_vendas → 0 ≤ c.faturamento_servicos →
      faturamento_total c ≠ 0 →
      (calcular_simples_nacional c custom).faixa =
        (get_faixa_simples (rbt12_usado custom c.rbt12) ANEXO_I_COMERCIO).2.2) := by
  refine ⟨⟨rfl, rfl, rfl⟩, fun r => ⟨faixa_idx_iii r, faixa_idx_v r⟩, ?_⟩
  intro c custom hv hs ht
  simp only [calcular_simples_nacional, if_neg ht]
  by_cases hv0 : 0 < c.faturamento_vendas <;> by_cases hs0 : 0 < c.faturamento_servicos
  · simp only [hv0, hs0, if_true]
    rcases tabela_servicos_cases c with hT | hT <;> rw [hT]
    · rw [faixa_idx_iii]
      exact max_self _
    · rw [faixa_idx_v]
      exact max_self _
  · simp only [hv0, hs0, if_true, if_false]
    exact max_eq_left (faixa_idx_pos_i _)
  · simp only [hv0, hs0, if_true, if_false]
    rcases tabela_servicos_cases c with hT | hT <;> rw [hT]
    · rw [faixa_idx_iii]
      exact max_eq_right (faixa_idx_pos_i _)
    · rw [faixa_idx_v]
      exact max_eq_right (faixa_idx_pos_i _)
  · exfalso
    apply ht
    have h1 : c.faturamento_vendas = 0 := le_antisymm (not_lt.mp hv0) hv
    have h2 : c.faturamento_servicos = 0 := le_antisymm (not_lt.mp hs0) hs
    simp [faturamento_total, h1, h2]

/-- Witness for C10 at `cW10`. -/
theorem faixa_independent_of_schedule_witness :
    (0 : ℚ) ≤ cW10.faturamento_vendas ∧ (0 : ℚ) ≤ cW10.faturamento_servicos ∧
      faturamento_total cW10 ≠ 0 ∧
      (calcular_simples_nacional cW10 none).faixa =
        (get_faixa_simples (rbt12_usado none cW10.rbt12) ANEXO_I_COMERCIO).2.2 := by
  have hv : (0 : ℚ) ≤ cW10.faturamento_vendas := by norm_num [cW10]
  have hs : (0 : ℚ) ≤ cW10.faturamento_servicos := by norm_num [cW10]
  have ht : faturamento_total cW10 ≠ 0 := by norm_num [faturamento_total, cW10]
  exact ⟨hv, hs, ht, faixa_independent_of_schedule.2.2 cW10 none hv hs ht⟩

/-- C1: with total revenue 0 (and the data-model invariant of non-negative
revenue components and costs), each of the three regime calculators
returns zero tax — the simplified DAS (and its total cost) is 0, and all
five federal levies of the presumed-profit and real-profit calculators
are 0 — with every division guarded, regardless of payroll, INSS bases,
FGTS or costs. -/
theorem zero_revenue_zero_tax (c : Calc) (h0 : faturamento_total c = 0)
    (hv : 0 ≤ c.faturamento_vendas) (hs : 0 ≤ c.faturamento_servicos)
    (hcmv : 0 ≤ c.cmv) (hdo : 0 ≤ c.despesas_operacionais)
    (hfs : 0 ≤ c.folha_salarial) (hpl : 0 ≤ c.prolabore)
    (hfg : 0 ≤ c.fgts_anual) :
    (∀ custom : Option ℚ,
      (calcular_simples_nacional c custom).imposto_das = 0 ∧
        (calcular_simples_nacional c custom).carga_tributaria_total = 0) ∧
    ((calcular_lucro_presumido c).irpj = 0 ∧
      (calcular_lucro_presumido c).adicional_irpj = 0 ∧
      (calcular_lucro_presumido c).csll = 0 ∧
      (calcular_lucro_presumido c).pis = 0 ∧
      (calcular_lucro_presumido c).cofins = 0) ∧
    ((calcular_lucro_real c).irpj = 0 ∧
      (calcular_lucro_real c).adicional_irpj = 0 ∧
      (calcular_lucro_real c).csll = 0 ∧
      (calcular_lucro_real c).pis = 0 ∧
      (calcular_lucro_real c).cofins = 0) := by
  have hv0 : c.faturamento_vendas = 0 := by
    unfold faturamento_total at h0
    linarith
  have hs0 : c.faturamento_servicos = 0 := by
    unfold faturamento_total at h0
    linarith
  have hlucro : lucro_contabil c ≤ 0 := by
    unfold lucro_contabil
    rw [h0]
    linarith
  refine ⟨fun custom => ?_, ?_, ?_⟩
  · simp [calcular_simples_nacional, h0]
  · have hb : max (0 : ℚ) (c.faturamento_vendas * 0.08 +
        c.faturamento_servicos * 0.32 - 240000) = 0 := by
      rw [hv0, hs0]
      norm_num
    simp [calcular_lucro_presumido, hv0, hs0, hb, h0]
  · simp [calcular_lucro_real, hlucro]

/-- Witness for C1 at `cW1`. -/
theorem zero_revenue_zero_tax_witness :
    faturamento_total cW1 = 0 ∧
      (calcular_simples_nacional cW1 none).imposto_das = 0 ∧
      (calcular_lucro_presumido cW1).irpj = 0 ∧
      (calcular_lucro_real cW1).irpj = 0 := by
  have h0 : faturamento_total cW1 = 0 := by norm_num [faturamento_total, cW1]
  have h := zero_revenue_zero_tax cW1 h0 (by norm_num [cW1]) (by norm_num [cW1])
    (by norm_num [cW1]) (by norm_num [cW1]) (by norm_num [cW1]) (by norm_num [cW1])
    (by norm_num [cW1])
  exact ⟨h0, (h.1 none).1, h.2.1.1, h.2.2.1⟩

/-- C2 (code defect): an explicitly supplied override of exactly 0 is
merged with "no override" by `rbt12_custom or self.rbt12`.  On `cC2` the
calculator invoked with override 0 uses the stored rolling revenue 200000
— not 0 — computes DAS 4330 (second bracket effective rate on 100000),
and its output is indistinguishable from the no-override call.  Had the
override 0 been honoured, the guarded effective rate would have been 0
and the DAS 0. -/
theorem override_zero_ignored :
    (calcular_simples_nacional cC2 (some 0)).rbt12_usado = some 200000 ∧
      (calcular_simples_nacional cC2 (some 0)).imposto_das = 4330 ∧
      calcular_simples_nacional cC2 (some 0) = calcular_simples_nacional cC2 none ∧
      rbt12_usado (some 0) cC2.rbt12 = 200000 := by
  refine ⟨?_, ?_, ?_, ?_⟩
  · norm_num [calcular_simples_nacional, cC2, faturamento_total, rbt12_usado]
  · norm_num [calcular_simples_nacional, cC2, faturamento_total, rbt12_usado,
      ANEXO_I_COMERCIO, get_faixa_simples_six]
  · norm_num [calcular_simples_nacional, cC2, faturamento_total, rbt12_usado]
  · norm_num [rbt12_usado, cC2]

/-- C3 (code defect): the constructor performs no validation.  On `kC3`
(negative revenue, 5-month history in detailed mode) it accepts the
input, silently pads the history to 12 entries with zeros, and tax
computation proceeds — the presumed-profit calculator even produces a
negative IRPJ of -12 on the negative revenue — instead of rejecting the
input synchronously. -/
theorem invalid_input_accepted :
    (mkCalculadora kC3).faturamento_vendas = -1000 ∧
      (mkCalculadora kC3).meses_anteriores.length = 12 ∧
      (mkCalculadora kC3).rbt12 = 50000 ∧
      (calcular_lucro_presumido (mkCalculadora kC3)).irpj = -12 := by
  have hc : mkCalculadora kC3 =
      { modo_calculo := Modo.detalhado, faturamento_vendas := -1000,
        faturamento_servicos := 0, servicoIntelectual := false,
        meses_anteriores := [10000, 10000, 10000, 10000, 10000, 0, 0, 0, 0, 0, 0, 0],
        projecoes := [0, 0, 0, 0, 0, 0], rbt12 := 50000,
        folha_salarial := 0, prolabore := 0, base_inss_salario := 0,
        base_inss_prolabore := 0, fgts_anual := 0, cmv := 0,
        despesas_operacionais := 0 } := by
    norm_num [mkCalculadora, kC3, List.range_succ]
  rw [hc]
  norm_num [calcular_lucro_presumido, faturamento_total]

/-- C5: in detailed mode (where the constructor establishes
`rbt12 = sum of the 12-entry history`), the rolling-revenue engine at
offset 0 returns the sum of the trailing months, and at offset k > 0
returns the trailing sequence with its first k entries dropped plus the
first k projection entries; in direct mode it returns the stored rolling
revenue at every offset. -/
theorem rolling_revenue_engine (c : Calc) (hm : c.modo_calculo = Modo.detalhado)
    (hlen : c.meses_anteriores.length = 12)
    (hr : c.rbt12 = c.meses_anteriores.sum) :
    calcular_rbt12_mes c 0 = c.meses_anteriores.sum ∧
    (∀ k, 0 < k → calcular_rbt12_mes c k =
        (c.meses_anteriores.drop k).sum + (c.projecoes.take k).sum) ∧
    (∀ (c2 : Calc) (k : ℕ), c2.modo_calculo = Modo.simples →
        calcular_rbt12_mes c2 k = c2.rbt12) := by
  refine ⟨?_, ?_, ?_⟩
  · simp [calcular_rbt12_mes, hm, hr]
  · intro k hk
    simp [calcular_rbt12_mes, hm, Nat.pos_iff_ne_zero.mp hk, List.sum_append]
  · intro c2 k hm2
    simp [calcular_rbt12_mes, hm2]

/-- Witness for C5 at `cW5`: 12 × 10000 at offset 0, and
11 × 10000 + 20000 at offset 1. -/
theorem rolling_revenue_engine_witness :
    cW5.modo_calculo = Modo.detalhado ∧ cW5.meses_anteriores.length = 12 ∧
      cW5.rbt12 = cW5.meses_anteriores.sum ∧
      calcular_rbt12_mes cW5 0 = 120000 ∧ calcular_rbt12_mes cW5 1 = 130000 := by
  have hlen : cW5.meses_anteriores.length = 12 := by norm_num [cW5]
  have hr : cW5.rbt12 = cW5.meses_anteriores.sum := by norm_num [cW5]
  have h := rolling_revenue_engine cW5 rfl hlen hr
  refine ⟨rfl, hlen, hr, ?_, ?_⟩
  · rw [h.1]
    norm_num [cW5]
  · rw [h.2.1 1 (by norm_num)]
    norm_num [cW5]

/-- C6: with positive services revenue (and non-negative goods revenue),
the services bracket is resolved against the intellectual-services table
exactly when the qualifying flag is set and the labor-cost ratio
(payroll + pro-labore over total revenue) is strictly below 0.28, and
against the general-services table in every other case.  The spec's
scenario (flag set, services 50000, payroll + pro-labore 20000, ratio
0.40 ≥ 0.28 → general-services table) is included at `cW6`. -/
theorem fator_r_schedule_choice (c : Calc)
    (hs : 0 < c.faturamento_servicos) (hv : 0 ≤ c.faturamento_vendas) :
    (tabela_servicos_usada c = ANEXO_V_SERVICOS_INTELECTUAIS ↔
      c.servicoIntelectual = true ∧
        (c.folha_salarial + c.prolabore) / faturamento_total c < 0.28) ∧
    (tabela_servicos_usada c = ANEXO_III_SERVICOS ↔
      ¬(c.servicoIntelectual = true ∧
        (c.folha_salarial + c.prolabore) / faturamento_total c < 0.28)) := by
  have htot : 0 < faturamento_total c := by
    unfold faturamento_total
    linarith
  have hne := anexo_iii_ne_anexo_v
  cases hsi : c.servicoIntelectual
  · simp [tabela_servicos_usada, hsi, hne]
  · by_cases hcmp : (c.folha_salarial + c.prolabore) / faturamento_total c ≥ 0.28
    · simp [tabela_servicos_usada, hsi, htot, hcmp, hne, not_lt.mpr hcmp]
    · simp [tabela_servicos_usada, hsi, htot, hcmp, Ne.symm hne, not_le.mp hcmp]

/-- Witness for C6 at `cW6`: ratio 0.40 ≥ 0.28, so the general-services
table is used despite the flag. -/
theorem fator_r_schedule_choice_witness :
    (0 : ℚ) < cW6.faturamento_servicos ∧ (0 : ℚ) ≤ cW6.faturamento_vendas ∧
      tabela_servicos_usada cW6 = ANEXO_III_SERVICOS := by
  have hs : (0 : ℚ) < cW6.faturamento_servicos := by norm_num [cW6]
  have hv : (0 : ℚ) ≤ cW6.faturamento_vendas := by norm_num [cW6]
  refine ⟨hs, hv, ((fator_r_schedule_choice cW6 hs hv).2).mpr ?_⟩
  rintro ⟨-, hrat⟩
  rw [show faturamento_total cW6 = 50000 by norm_num [faturamento_total, cW6]] at hrat
  norm_num [cW6] at hrat

/-- C7: whenever the accounting profit is ≤ 0, the real-profit calculator
returns IRPJ, surtax, CSLL, PIS and COFINS all 0, reports the absolute
value of the loss as the fiscal-loss figure (0 when the profit is exactly
0), and its total cost is the employer payroll charge plus FGTS only. -/
theorem lucro_real_loss_branch (c : Calc) (h : lucro_contabil c ≤ 0) :
    (calcular_lucro_real c).irpj = 0 ∧
      (calcular_lucro_real c).adicional_irpj = 0 ∧
      (calcular_lucro_real c).csll = 0 ∧
      (calcular_lucro_real c).pis = 0 ∧
      (calcular_lucro_real c).cofins = 0 ∧
      (calcular_lucro_real c).prejuizo_fiscal = some |lucro_contabil c| ∧
      (lucro_contabil c = 0 → (calcular_lucro_real c).prejuizo_fiscal = some 0) ∧
      (calcular_lucro_real c).carga_tributaria_total =
        c.base_inss_salario * 0.258 + c.base_inss_prolabore * 0.20 + c.fgts_anual := by
  refine ⟨?_, ?_, ?_, ?_, ?_, ?_, fun h0 => ?_, ?_⟩ <;>
    simp [calcular_lucro_real, h, *, abs_of_nonpos]

/-- Witness for C7 at `cW7`: loss of 30000, taxes 0, cost = employer
charge + FGTS = 15480 + 4000 + 5000 = 24480. -/
theorem lucro_real_loss_branch_witness :
    lucro_contabil cW7 ≤ 0 ∧ (calcular_lucro_real cW7).irpj = 0 ∧
      (calcular_lucro_real cW7).prejuizo_fiscal = some 30000 ∧
      (calcular_lucro_real cW7).carga_tributaria_total = 24480 := by
  have h : lucro_contabil cW7 ≤ 0 := by
    norm_num [lucro_contabil, faturamento_total, cW7]
  have hl := lucro_real_loss_branch cW7 h
  refine ⟨h, hl.1, ?_, ?_⟩
  · rw [hl.2.2.2.2.2.1]
    norm_num [lucro_contabil, faturamento_total, cW7]
  · rw [hl.2.2.2.2.2.2.2]
    norm_num [cW7]

/-- C9: the presumed-profit IRPJ surtax is 10% of the portion of the
presumed IRPJ base exceeding 240000, floored at 0; at base exactly 240000
(`cW9a`, goods revenue 3000000) it is 0, and at base 240001 (`cW9b`,
goods revenue 3000012.5) it is 0.10. -/
theorem presumido_adicional_irpj :
    (∀ c : Calc, (calcular_lucro_presumido c).adicional_irpj =
      (if c.faturamento_vendas * 0.08 + c.faturamento_servicos * 0.32 ≤ 240000
        then 0
        else (c.faturamento_vendas * 0.08 + c.faturamento_servicos * 0.32 - 240000) * 0.10)) ∧
    (calcular_lucro_presumido cW9a).irpj = 36000 ∧
      (calcular_lucro_presumido cW9a).adicional_irpj = 0 ∧
      (calcular_lucro_presumido cW9b).adicional_irpj = 0.10 := by
  have hgen : ∀ c : Calc, (calcular_lucro_presumido c).adicional_irpj =
      (if c.faturamento_vendas * 0.08 + c.faturamento_servicos * 0.32 ≤ 240000
        then 0
        else (c.faturamento_vendas * 0.08 + c.faturamento_servicos * 0.32 - 240000) * 0.10) := by
    intro c
    simp only [calcular_lucro_presumido]
    rcases le_or_lt (c.faturamento_vendas * 0.08 + c.faturamento_servicos * 0.32) 240000 with
      hle | hlt
    · rw [if_pos hle, max_eq_left (by linarith)]
      ring
    · rw [if_neg (not_le.mpr hlt), max_eq_right (by linarith)]
  refine ⟨hgen, ?_, ?_, ?_⟩
  · norm_num [calcular_lucro_presumido, cW9a]
  · rw [hgen]
    norm_num [cW9a]
  · rw [hgen]
    norm_num [cW9b]

/-- Unfolding of the loop body when the bracket index changes. -/
theorem mudanca_step_of_ne (c : Calc) (m : ℕ)
    (hne : faixa_mes c m ≠ faixa_mes c (m + 1)) :
    mudanca_step c m =
      some { mes := m + 1,
             de_faixa := faixas_nome.getD (faixa_mes c m - 1) "",
             para_faixa := faixas_nome.getD (faixa_mes c (m + 1) - 1) "",
             rbt12_atual := calcular_rbt12_mes c m,
             rbt12_novo := calcular_rbt12_mes c (m + 1),
             impacto_mensal := (carga_mes c (m + 1) - carga_mes c m) / 12,
             alerta := if |(carga_mes c (m + 1) - carga_mes c m) / 12| > 5000
               then "crítico" else "moderado",
             subindo := decide (faixa_mes c (m + 1) > faixa_mes c m) } := by
  simp only [mudanca_step, if_pos hne]

/-- Unfolding of the loop body when the bracket index does not change. -/
theorem mudanca_step_of_eq (c : Calc) (m : ℕ)
    (heq : faixa_mes c m = faixa_mes c (m + 1)) :
    mudanca_step c m = none := by
  simp [mudanca_step, heq]

/-- C8: in detailed mode, `analisar_mudanca_faixa` emits an alert for
month offset `mes` (offsets 0..5 bounded by the number of projections)
exactly when the simplified-regime bracket index at `mes` and `mes + 1`
differ, and every emitted alert carries monthly tax-delta
`(cost at mes+1 − cost at mes) / 12`, severity "crítico" exactly when the
absolute monthly delta exceeds 5000 (else "moderado"), and direction
"subindo" exactly when the destination bracket index is larger. -/
theorem transition_analyzer_alerts (c : Calc)
    (hm : c.modo_calculo = Modo.detalhado) :
    (∀ mes, mes < min 6 c.projecoes.length →
      ((∃ a ∈ analisar_mudanca_faixa c, a.mes = mes + 1) ↔
        faixa_mes c mes ≠ faixa_mes c (mes + 1))) ∧
    (∀ a ∈ analisar_mudanca_faixa c,
      ∃ mes, mes < min 6 c.projecoes.length ∧ a.mes = mes + 1 ∧
        a.impacto_mensal = (carga_mes c (mes + 1) - carga_mes c mes) / 12 ∧
        a.alerta = (if |a.impacto_mensal| > 5000 then "crítico" else "moderado") ∧
        (a.subindo = true ↔ faixa_mes c mes < faixa_mes c (mes + 1))) := by
  have hList : analisar_mudanca_faixa c =
      (List.range (min 6 c.projecoes.length)).filterMap (mudanca_step c) := by
    simp [analisar_mudanca_faixa, hm]
  constructor
  · intro mes hmes
    rw [hList]
    constructor
    · rintro ⟨a, ha, hamem⟩
      rw [List.mem_filterMap] at ha
      obtain ⟨m, _, hstep⟩ := ha
      by_cases hne : faixa_mes c m ≠ faixa_mes c (m + 1)
      · rw [mudanca_step_of_ne c m hne] at hstep
        have hmes_eq : a.mes = m + 1 := by
          rw [← Option.some_inj.mp hstep]
        have : m = mes := by omega
        rwa [this] at hne
      · rw [mudanca_step_of_eq c m (not_ne_iff.mp hne)] at hstep
        exact absurd hstep (by simp)
    · intro hne
      refine ⟨_, List.mem_filterMap.mpr
        ⟨mes, List.mem_range.mpr hmes, mudanca_step_of_ne c mes hne⟩, rfl⟩
  · intro a ha
    rw [hList, List.mem_filterMap] at ha
    obtain ⟨m, hmr, hstep⟩ := ha
    refine ⟨m, List.mem_range.mp hmr, ?_⟩
    by_cases hne : faixa_mes c m ≠ faixa_mes c (m + 1)
    · rw [mudanca_step_of_ne c m hne] at hstep
      obtain rfl := Option.some_inj.mp hstep
      refine ⟨rfl, rfl, rfl, ?_⟩
      simp [decide_eq_true_eq, gt_iff_lt]
    · rw [mudanca_step_of_eq c m (not_ne_iff.mp hne)] at hstep
      exact absurd hstep (by simp)

/-- Witness for C8 at `cW8`. -/
theorem transition_analyzer_alerts_witness :
    cW8.modo_calculo = Modo.detalhado ∧
      (∀ a ∈ analisar_mudanca_faixa cW8,
        ∃ mes, mes < min 6 cW8.projecoes.length ∧ a.mes = mes + 1 ∧
          a.impacto_mensal = (carga_mes cW8 (mes + 1) - carga_mes cW8 mes) / 12 ∧
          a.alerta = (if |a.impacto_mensal| > 5000 then "crítico" else "moderado") ∧
          (a.subindo = true ↔ faixa_mes cW8 mes < faixa_mes cW8 (mes + 1))) :=
  ⟨rfl, (transition_analyzer_alerts cW8 rfl).2⟩

end CalculadoraTributaria
